import Mathlib

/-!
Verification of the UIDAI demographic anomaly-scoring pipeline
(`aadhar_deep_analysis.py`) against its specification.

The pipeline is a single batch pass over one table.  We embed each stage
as a pure function over lists of records.  Machine floats are modelled by
`PFloat`, a numeric payload extended with the IEEE special values
`nan`, `inf` and `ninf`, with the numpy/pandas semantics used by the
script: `nan` is absorbing for arithmetic, every ordered comparison
against `nan` is false, and division by zero yields a signed infinity
(or `nan` for zero over zero).
-/

namespace UIDAI

/-- A machine float over a numeric carrier `α`: either an ordinary number
or one of the special values produced by numpy arithmetic. -/
inductive PFloat (α : Type) where
  | num : α → PFloat α
  | nan : PFloat α
  | inf : PFloat α
  | ninf : PFloat α
deriving DecidableEq

namespace PFloat

/-- Addition with numpy semantics: `nan` absorbs, `inf + ninf = nan`. -/
def add [Add α] : PFloat α → PFloat α → PFloat α
  | nan, _ => nan
  | _, nan => nan
  | num a, num b => num (a + b)
  | num _, inf => inf
  | num _, ninf => ninf
  | inf, num _ => inf
  | ninf, num _ => ninf
  | inf, inf => inf
  | ninf, ninf => ninf
  | inf, ninf => nan
  | ninf, inf => nan

/-- Division with numpy semantics: `nan` absorbs; a nonzero number over
zero is a signed infinity, zero over zero is `nan`. -/
def div [LinearOrderedField α] : PFloat α → PFloat α → PFloat α
  | nan, _ => nan
  | _, nan => nan
  | num a, num b =>
      if b = 0 then (if a = 0 then nan else if 0 < a then inf else ninf)
      else num (a / b)
  | num _, inf => num 0
  | num _, ninf => num 0
  | inf, num b => if 0 ≤ b then inf else ninf
  | ninf, num b => if 0 ≤ b then ninf else inf
  | inf, inf => nan
  | inf, ninf => nan
  | ninf, inf => nan
  | ninf, ninf => nan

/-- Strict `>` comparison with numpy semantics: any comparison involving
`nan` is false. -/
def gtb [LinearOrder α] : PFloat α → PFloat α → Bool
  | nan, _ => false
  | _, nan => false
  | num a, num b => decide (b < a)
  | num _, inf => false
  | num _, ninf => true
  | inf, inf => false
  | inf, num _ => true
  | inf, ninf => true
  | ninf, _ => false

end PFloat

/-! ## Stage 3: cleaning (`pd.to_numeric`, `total_population`, the `> 0` filter) -/

/-- A raw input row after column normalization.  `date = none` models an
unparseable date (`NaT` after `pd.to_datetime(..., errors="coerce")`);
a count of `none` models a non-numeric cell (`NaN` after
`pd.to_numeric(..., errors="coerce")`). -/
structure RawRow where
  date : Option Int
  pincode : Nat
  a5 : Option ℚ
  a17 : Option ℚ
deriving DecidableEq

/-- Embeds `pd.to_numeric(col, errors="coerce")`: a non-numeric cell becomes `NaN`. -/
def toNumeric : Option ℚ → PFloat ℚ
  | none => PFloat.nan
  | some q => PFloat.num q

/-- Embeds `df["total_population"] = df["demo_age_5_17"] + df["demo_age_17_"]`. -/
def totalPop (r : RawRow) : PFloat ℚ :=
  (toNumeric r.a5).add (toNumeric r.a17)

/-- Embeds `df = df.dropna(subset=["date"])` followed by
`df = df[df["total_population"] > 0]`. -/
def clean (l : List RawRow) : List RawRow :=
  (l.filter (fun r => r.date.isSome)).filter
    (fun r => (totalPop r).gtb (PFloat.num 0))

/-- Whether one row survives both cleaning filters. -/
def cleanPass (r : RawRow) : Bool :=
  r.date.isSome && (totalPop r).gtb (PFloat.num 0)

theorem clean_eq_filter (l : List RawRow) : clean l = l.filter cleanPass := by
  simp only [clean, cleanPass, List.filter_filter]
  exact List.filter_congr (fun r _ => Bool.and_comm _ _)

/-- C1 counterexample row: date parses, `demo_age_5_17` is non-numeric,
`demo_age_17_ = 5 > 0`. -/
def c1row : RawRow := ⟨some 0, 1, none, some 5⟩

/-- C1: the claim says a record whose date parses, with exactly one count
missing and the other strictly positive, is retained with the missing
count treated as 0.  In fact `NaN` propagates through the sum, the
`total_population > 0` comparison is false, and the record is dropped:
on the concrete row `c1row` (date parsed, first count missing, second
count 5) the cleaned table is empty and the total is `NaN`, not 5. -/
theorem c1_counterexample :
    clean [c1row] = [] ∧ totalPop c1row = PFloat.nan ∧
      totalPop c1row ≠ PFloat.num 5 := by
  refine ⟨rfl, rfl, ?_⟩
  decide

/-- C1 (amended): a record with at least one non-numeric count column is
always excluded by the `total_population > 0` filter, whatever the other
count and the date are, because the sum is `NaN` and every ordered
comparison against `NaN` is false. -/
theorem c1_missing_count_dropped (r : RawRow)
    (h : r.a5 = none ∨ r.a17 = none) : cleanPass r = false := by
  rcases h with h | h <;>
    · cases ha : r.a5 <;> cases hb : r.a17 <;>
        simp_all [cleanPass, totalPop, toNumeric, PFloat.add, PFloat.gtb]

/-- Witness for `c1_missing_count_dropped` at the concrete row `c1row`. -/
theorem c1_missing_count_dropped_witness :
    (c1row.a5 = none ∨ c1row.a17 = none) ∧ cleanPass c1row = false :=
  ⟨Or.inl rfl, c1_missing_count_dropped c1row (Or.inl rfl)⟩

/-! ## Stage 4/9: global shock-score normalization and confidence -/

/-- Mean of a rational series (`Series.mean`); the claims only use it on
nonempty lists. -/
def meanQ (l : List ℚ) : ℚ := l.sum / l.length

/-- Sample variance with `ddof = 1`, the pandas `Series.std()` default,
before the square root. -/
def svar (l : List ℚ) : ℚ :=
  (l.map (fun x => (x - meanQ l) ^ 2)).sum / ((l.length : ℚ) - 1)

/-- Embeds `df["pop_change"].std()`: the sample standard deviation, `NaN` when
fewer than two observations are present (`ddof = 1`). -/
noncomputable def sampleStd (l : List ℚ) : PFloat ℝ :=
  if l.length ≤ 1 then PFloat.nan else PFloat.num (Real.sqrt (svar l))

/-- Embeds `df["shock_score"] = (df["pop_change"] - mu) / sigma`, the global
z-score of `pop_change` (line 54 of the script). -/
noncomputable def shockScores (pcs : List ℚ) : List (PFloat ℝ) :=
  pcs.map (fun (x : ℚ) =>
    PFloat.div (PFloat.num ((x : ℝ) - ((meanQ pcs : ℚ) : ℝ))) (sampleStd pcs))

/-- Embeds `Series.max()`: `NaN` on an empty series, else the maximum. -/
def seriesMax (l : List ℚ) : PFloat ℚ :=
  match l.maximum with
  | none => PFloat.nan
  | some m => PFloat.num m

/-- Round-half-to-even to an integer, the numpy rounding mode behind
`Series.round`. -/
def rhalfEven (x : ℚ) : ℤ :=
  if x - ⌊x⌋ < 1/2 then ⌊x⌋
  else if 1/2 < x - ⌊x⌋ then ⌊x⌋ + 1
  else if ⌊x⌋ % 2 = 0 then ⌊x⌋ else ⌊x⌋ + 1

/-- Embeds `Series.round(3)` on an ordinary number. -/
def round3 (q : ℚ) : ℚ := (rhalfEven (q * 1000) : ℚ) / 1000

/-- Embeds `Series.round(3)` on a float: the special values are left unchanged. -/
def round3PF : PFloat ℚ → PFloat ℚ
  | PFloat.num q => PFloat.num (round3 q)
  | x => x

/-- Embeds `df["confidence"] = (df["ml_score"] / df["ml_score"].max()).round(3)`
(line 105 of the script). -/
def confidences (scores : List ℚ) : List (PFloat ℚ) :=
  scores.map (fun s => round3PF (PFloat.div (PFloat.num s) (seriesMax scores)))

theorem meanQ_const (c : ℚ) (l : List ℚ) (hne : l ≠ [])
    (h : ∀ x ∈ l, x = c) : meanQ l = c := by
  have hsum : l.sum = l.length * c := by
    induction l with
    | nil => simp
    | cons a t ih =>
        have ha : a = c := h a (by simp)
        by_cases ht : t = []
        · subst ht; simp [ha]
        · have := ih ht (fun x hx => h x (by simp [hx]))
          simp [ha, this]; ring
  have hlen : (l.length : ℚ) ≠ 0 := by
    exact_mod_cast (List.length_pos.2 hne).ne'
  rw [meanQ, hsum]
  exact mul_div_cancel_left₀ c hlen

/-- C2 counterexample: a single surviving record has `pop_change = 0`,
the sample standard deviation is `NaN`, and the shock score is `NaN`,
not 0; and when the run-wide maximum of `ml_score` is 0 (scores 0 and
-1), the confidences are `NaN` and `-inf`, not 0. -/
theorem c2_counterexample :
    shockScores [0] = [PFloat.nan] ∧ shockScores [0] ≠ [PFloat.num 0] ∧
      confidences [0, -1] = [PFloat.nan, PFloat.ninf] ∧
      confidences [0, -1] ≠ [PFloat.num 0, PFloat.num 0] := by
  refine ⟨?_, ?_, by decide, by decide⟩
  · simp [shockScores, sampleStd, PFloat.div]
  · simp [shockScores, sampleStd, PFloat.div]

/-- C2 (amended): in the degenerate cases — at most one record, or all
`pop_change` values equal (zero variance) — every shock score is `NaN`,
not 0, because the z-score divides by a `NaN` or zero standard
deviation; and when the run-wide maximum of `ml_score` is 0, every
confidence is `NaN` (score 0) or `-inf` (score < 0), not 0.  The
non-finite values are kept in these columns; only the separate ML
feature matrix replaces them by 0. -/
theorem c2_degenerate_nan (pcs scores : List ℚ)
    (hdeg : pcs.length ≤ 1 ∨ ∀ x ∈ pcs, ∀ y ∈ pcs, x = y)
    (hmax : scores.maximum = some 0) :
    (∀ s ∈ shockScores pcs, s = PFloat.nan) ∧
      (∀ c ∈ confidences scores, c = PFloat.nan ∨ c = PFloat.ninf) := by
  constructor
  · intro s hs
    rcases List.mem_map.1 hs with ⟨x, hx, rfl⟩
    rcases hdeg with hlen | heq
    · simp [sampleStd, hlen, PFloat.div]
    · by_cases hlen : pcs.length ≤ 1
      · simp [sampleStd, hlen, PFloat.div]
      · have hne : pcs ≠ [] := by
          intro h; rw [h] at hlen; simp at hlen
        have hmean : meanQ pcs = x := by
          exact meanQ_const x pcs hne (fun y hy => heq y hy x hx)
        have hvar : svar pcs = 0 := by
          rw [svar]
          have hz : (pcs.map (fun y => (y - meanQ pcs) ^ 2)).sum = 0 := by
            rw [List.sum_eq_zero]
            intro q hq
            rcases List.mem_map.1 hq with ⟨y, hy, rfl⟩
            simp [hmean, heq y hy x hx]
          rw [hz, zero_div]
        have hnum : (x : ℝ) - ((meanQ pcs : ℚ) : ℝ) = 0 := by
          rw [hmean]; simp
        simp [sampleStd, hlen, hvar, PFloat.div, hnum]
  · intro c hc
    rcases List.mem_map.1 hc with ⟨s, hs, rfl⟩
    have hle : s ≤ 0 := List.le_maximum_of_mem hs hmax
    rw [seriesMax, hmax]
    rcases lt_or_eq_of_le hle with hlt | hEq
    · right
      simp [PFloat.div, hlt.ne, not_lt.2 hlt.le, hlt.not_lt, round3PF]
    · left
      simp [PFloat.div, hEq, round3PF]

/-- Witness for `c2_degenerate_nan`: a single `pop_change` of 0 and the
score list `[0, -1]` whose maximum is 0. -/
theorem c2_degenerate_nan_witness :
    ([(0 : ℚ)].length ≤ 1 ∨ ∀ x ∈ [(0 : ℚ)], ∀ y ∈ [(0 : ℚ)], x = y) ∧
      ([(0 : ℚ), -1].maximum = some 0) ∧
      ((∀ s ∈ shockScores [0], s = PFloat.nan) ∧
        ∀ c ∈ confidences [0, -1], c = PFloat.nan ∨ c = PFloat.ninf) :=
  ⟨Or.inl (by decide), by decide,
    c2_degenerate_nan [0] [0, -1] (Or.inl (by decide)) (by decide)⟩

/-! ## Stage 7: severity classification -/

/-- The three severity levels. -/
inductive Severity where
  | NORMAL
  | SUSPICIOUS
  | SEVERE
deriving DecidableEq

/-- Embeds `Series.quantile(q)` with the default linear interpolation: on the
sorted values `v_0, ..., v_(n-1)`, the quantile sits at fractional
position `h = q * (n - 1)` and interpolates between the neighbouring
values. -/
def quantileLin (l : List ℚ) (q : ℚ) : ℚ :=
  let s := List.insertionSort (· ≤ ·) l
  let h : ℚ := q * ((l.length : ℚ) - 1)
  let lo := (⌊h⌋).toNat
  let hi := (⌈h⌉).toNat
  s.getD lo 0 + (h - (⌊h⌋ : ℚ)) * (s.getD hi 0 - s.getD lo 0)

/-- Embeds `df["severity"] = "NORMAL"` (line 81): the default column. -/
def sevDefault (rows : List (Int × ℚ)) : List Severity :=
  rows.map (fun _ => Severity.NORMAL)

/-- Embeds `df.loc[df["ml_flag"] == -1, "severity"] = "SUSPICIOUS"` (line 82):
masked overwrite of the default column. -/
def sevFlag (rows : List (Int × ℚ)) : List Severity :=
  List.zipWith (fun r s => if r.1 = -1 then Severity.SUSPICIOUS else s)
    rows (sevDefault rows)

/-- Embeds `df.loc[df["ml_score"] < cut, "severity"] = "SEVERE"` (line 83):
masked overwrite given the percentile cut. -/
def sevBelow (cut : ℚ) (rows : List (Int × ℚ)) : List Severity :=
  List.zipWith (fun r s => if r.2 < cut then Severity.SEVERE else s)
    rows (sevFlag rows)

/-- Lines 81-83 of the script: the three sequential masked assignments,
with the cut at the 1st percentile of `ml_score` over the whole table. -/
def severityAssign (rows : List (Int × ℚ)) : List Severity :=
  sevBelow (quantileLin (rows.map Prod.snd) (1/100)) rows

theorem sevBelow_get (cut : ℚ) (rows : List (Int × ℚ)) (i : ℕ)
    (fs : Int × ℚ) (h : rows[i]? = some fs) :
    (sevBelow cut rows)[i]? =
      some (if fs.2 < cut then Severity.SEVERE
        else if fs.1 = -1 then Severity.SUSPICIOUS else Severity.NORMAL) := by
  induction rows generalizing i with
  | nil => simp at h
  | cons r rs ih =>
      cases i with
      | zero =>
          simp at h
          subst h
          simp [sevBelow, sevFlag, sevDefault]
      | succ n =>
          simp at h
          have := ih n h
          simpa [sevBelow, sevFlag, sevDefault] using this

theorem quantileLin_eval : quantileLin [0, 10] (1/100) = 1/10 := by
  have hce : (⌈(1:ℚ)/100⌉ : ℤ) = 1 := by
    rw [Int.ceil_eq_iff]
    norm_num
  rw [quantileLin]
  norm_num [hce, List.insertionSort, List.orderedInsert]

/-- C3 counterexample: two inlier records (`ml_flag = 1`) with scores 0
and 10.  The 1st percentile of the scores is 0.1, so the first record is
promoted to SEVERE although its flag is not the outlier value -1: SEVERE
is not a subset of the outlier-flagged records for every assignment of
`ml_flag` and `ml_score`. -/
theorem c3_counterexample :
    (severityAssign [(1, 0), (1, 10)])[0]? = some Severity.SEVERE ∧
      (1 : Int) ≠ -1 := by
  constructor
  · norm_num [severityAssign, sevBelow, sevFlag, sevDefault, quantileLin_eval]
  · decide

/-- C3 (amended): the set of SEVERE records coincides with the set of
records whose `ml_score` is strictly below the 1st percentile of
`ml_score` over the whole table — independent of `ml_flag`.  (SEVERE is
a subset of the below-percentile records, not of the outlier-flagged
records.) -/
theorem c3_severe_iff_below (rows : List (Int × ℚ)) (i : ℕ)
    (fs : Int × ℚ) (h : rows[i]? = some fs) :
    (severityAssign rows)[i]? = some Severity.SEVERE ↔
      fs.2 < quantileLin (rows.map Prod.snd) (1/100) := by
  rw [severityAssign, sevBelow_get _ rows i fs h]
  rcases lt_or_le fs.2 (quantileLin (rows.map Prod.snd) (1/100)) with hb | hb
  · rw [if_pos hb]
    exact iff_of_true rfl hb
  · rw [if_neg (not_lt.2 hb)]
    refine iff_of_false ?_ (not_lt.2 hb)
    by_cases hf : fs.1 = -1 <;> simp [hf]

/-- Witness for `c3_severe_iff_below` on the concrete two-record table. -/
theorem c3_severe_iff_below_witness :
    ([((1 : Int), (0 : ℚ)), (1, 10)][0]? = some (1, 0)) ∧
      ((severityAssign [(1, 0), (1, 10)])[0]? = some Severity.SEVERE ↔
        (0 : ℚ) < quantileLin ([((1 : Int), (0 : ℚ)), (1, 10)].map Prod.snd) (1/100)) :=
  ⟨rfl, c3_severe_iff_below [(1, 0), (1, 10)] 0 (1, 0) rfl⟩

/-- C4: severity is a pure function of `ml_flag` and the whole-table
distribution of `ml_score`, assigned by the three sequential rules with
later rules overriding earlier ones: a record strictly below the 1st
percentile of `ml_score` is SEVERE regardless of its flag, otherwise an
outlier-flagged record is SUSPICIOUS, otherwise it is NORMAL; every
record gets exactly one of the three severities, and the output column
has one entry per input record. -/
theorem c4_severity_rules (rows : List (Int × ℚ)) (i : ℕ)
    (fs : Int × ℚ) (h : rows[i]? = some fs) :
    (severityAssign rows)[i]? =
      some (if fs.2 < quantileLin (rows.map Prod.snd) (1/100) then Severity.SEVERE
        else if fs.1 = -1 then Severity.SUSPICIOUS else Severity.NORMAL) ∧
      (severityAssign rows).length = rows.length ∧
      ∀ s ∈ severityAssign rows,
        s = Severity.NORMAL ∨ s = Severity.SUSPICIOUS ∨ s = Severity.SEVERE := by
  refine ⟨sevBelow_get _ rows i fs h, ?_, ?_⟩
  · simp [severityAssign, sevBelow, sevFlag, sevDefault]
  · intro s _
    cases s
    · exact Or.inl rfl
    · exact Or.inr (Or.inl rfl)
    · exact Or.inr (Or.inr rfl)

/-- Witness for `c4_severity_rules` on the concrete two-record table. -/
theorem c4_severity_rules_witness :
    ([((1 : Int), (0 : ℚ)), (-1, 10)][1]? = some (-1, 10)) ∧
      ((severityAssign [(1, 0), (-1, 10)])[1]? =
        some (if (10 : ℚ) < quantileLin ([((1 : Int), (0 : ℚ)), (-1, 10)].map Prod.snd) (1/100)
          then Severity.SEVERE
          else if (-1 : Int) = -1 then Severity.SUSPICIOUS else Severity.NORMAL) ∧
        (severityAssign [(1, 0), (-1, 10)]).length = 2 ∧
        ∀ s ∈ severityAssign [(1, 0), (-1, 10)],
          s = Severity.NORMAL ∨ s = Severity.SUSPICIOUS ∨ s = Severity.SEVERE) :=
  ⟨rfl, c4_severity_rules [(1, 0), (-1, 10)] 1 (-1, 10) rfl⟩

/-! ## Stage 8: explainability -/

/-- The list built by `explain(row)` (lines 88-97): reasons appended in
the fixed order of the four threshold checks. -/
def reasonsList (youth shock pc total : ℚ) : List String :=
  (if youth > 0.45 then ["Youth-heavy population"] else []) ++
  (if youth < 0.10 then ["Ageing population"] else []) ++
  (if |shock| > 5 then ["Sudden demographic shock"] else []) ++
  (if |pc| > 0.2 * total then ["Large population swing"] else [])

/-- Embeds `"; ".join(reasons) if reasons else "Multi-factor deviation"`
(line 98). -/
def explain (youth shock pc total : ℚ) : String :=
  if reasonsList youth shock pc total = [] then "Multi-factor deviation"
  else String.intercalate "; " (reasonsList youth shock pc total)

/-- Embeds `df["youth_ratio"] = df["demo_age_5_17"] / df["total_population"]`
(line 45). -/
def youthRatio (a5 total : ℚ) : ℚ := a5 / total

/-- C7: `reason` is a pure per-record function of the four feature
values; the triggered reason strings are joined with "; " in the fixed
order of the checks; when no rule triggers the result is exactly
"Multi-factor deviation", so the reason is never the empty string; and a
record with `total_population = 100` and `demo_age_5_17 = 80` (youth
ratio 0.8 > 0.45) always triggers "Youth-heavy population" as the first
reason, whatever its shock score and population change are. -/
theorem c7_reason (youth shock pc total : ℚ) :
    explain youth shock pc total ≠ "" ∧
      (reasonsList youth shock pc total = [] →
        explain youth shock pc total = "Multi-factor deviation") ∧
      (reasonsList youth shock pc total ≠ [] →
        explain youth shock pc total =
          String.intercalate "; " (reasonsList youth shock pc total)) ∧
      (youth > 0.45 →
        "Youth-heavy population" ∈ reasonsList youth shock pc total) ∧
      (∀ s q : ℚ,
        (reasonsList (youthRatio 80 100) s q 100).head? =
          some "Youth-heavy population") := by
  refine ⟨?_, ?_, ?_, ?_, ?_⟩
  · rw [explain, reasonsList]
    split_ifs <;> first
      | decide
      | (exfalso; simp_all)
  · intro h
    rw [explain, if_pos h]
  · intro h
    rw [explain, if_neg h]
  · intro h
    rw [reasonsList, if_pos h]
    simp
  · intro s q
    have hy : youthRatio 80 100 > 0.45 := by
      rw [youthRatio]; norm_num
    rw [reasonsList, if_pos hy]
    simp

/-- Witness for `c7_reason`: the implication hypotheses discharged at a
concrete record with youth ratio 0.8 (every rule state evaluated). -/
theorem c7_reason_witness :
    (reasonsList 0.8 0 0 100 ≠ [] ∧
      explain 0.8 0 0 100 = String.intercalate "; " (reasonsList 0.8 0 0 100)) ∧
      ((0.8 : ℚ) > 0.45 ∧ "Youth-heavy population" ∈ reasonsList 0.8 0 0 100) ∧
      (reasonsList 0.2 0 0 100 = [] ∧
        explain 0.2 0 0 100 = "Multi-factor deviation") := by
  have h1 := (c7_reason 0.8 0 0 100).2.2.1
  have h2 := (c7_reason 0.8 0 0 100).2.2.2.1
  have h3 := (c7_reason 0.2 0 0 100).2.1
  have hne : reasonsList 0.8 0 0 100 ≠ [] := by
    rw [reasonsList]
    norm_num
  have hemp : reasonsList 0.2 0 0 100 = [] := by
    rw [reasonsList]
    norm_num
  exact ⟨⟨hne, h1 hne⟩, ⟨by norm_num, h2 (by norm_num)⟩, ⟨hemp, h3 hemp⟩⟩

/-! ## Stage 10: policy action engine -/

/-- Embeds `action(score)` (lines 126-133): the threshold map on
`impact_score`, strict `>` boundaries checked in descending order. -/
def action (score : ℚ) : String :=
  if score > 0.85 then "Immediate audit & field verification"
  else if score > 0.65 then "Targeted demographic investigation"
  else if score > 0.45 then "Monitor closely"
  else "No action"

/-- C6: `recommended_action` is the pure threshold map with strict `>`
boundaries and first match wins, and the three concrete values of the
spec evaluate as required: 0.90 to the audit action, 0.50 to
"Monitor closely", 0.10 to "No action". -/
theorem c6_action (s : ℚ) :
    (s > 0.85 → action s = "Immediate audit & field verification") ∧
      (s ≤ 0.85 → s > 0.65 → action s = "Targeted demographic investigation") ∧
      (s ≤ 0.65 → s > 0.45 → action s = "Monitor closely") ∧
      (s ≤ 0.45 → action s = "No action") ∧
      action 0.9 = "Immediate audit & field verification" ∧
      action 0.5 = "Monitor closely" ∧
      action 0.1 = "No action" := by
  refine ⟨?_, ?_, ?_, ?_, ?_, ?_, ?_⟩
  · intro h
    rw [action, if_pos h]
  · intro h1 h2
    rw [action, if_neg (not_lt.2 h1), if_pos h2]
  · intro h1 h2
    have h85 : ¬ s > 0.85 := not_lt.2 (h1.trans (by norm_num))
    rw [action, if_neg h85, if_neg (not_lt.2 h1), if_pos h2]
  · intro h
    have h65 : ¬ s > 0.65 := not_lt.2 (h.trans (by norm_num))
    have h85 : ¬ s > 0.85 := not_lt.2 (h.trans (by norm_num))
    rw [action, if_neg h85, if_neg h65, if_neg (not_lt.2 h)]
  · rw [action, if_pos (by norm_num)]
  · rw [action, if_neg (by norm_num), if_neg (by norm_num), if_pos (by norm_num)]
  · rw [action, if_neg (by norm_num), if_neg (by norm_num), if_neg (by norm_num)]

/-- Witness for `c6_action`: each guarded branch discharged at a
concrete score. -/
theorem c6_action_witness :
    ((0.9 : ℚ) > 0.85 ∧ action 0.9 = "Immediate audit & field verification") ∧
      ((0.7 : ℚ) ≤ 0.85 ∧ (0.7 : ℚ) > 0.65 ∧
        action 0.7 = "Targeted demographic investigation") ∧
      ((0.5 : ℚ) ≤ 0.65 ∧ (0.5 : ℚ) > 0.45 ∧ action 0.5 = "Monitor closely") ∧
      ((0.1 : ℚ) ≤ 0.45 ∧ action 0.1 = "No action") :=
  ⟨⟨by norm_num, (c6_action 0.9).1 (by norm_num)⟩,
    ⟨by norm_num, by norm_num, (c6_action 0.7).2.1 (by norm_num) (by norm_num)⟩,
    ⟨by norm_num, by norm_num, (c6_action 0.5).2.2.1 (by norm_num) (by norm_num)⟩,
    ⟨by norm_num, (c6_action 0.1).2.2.2.1 (by norm_num)⟩⟩

/-! ## Stage 12: early warning zones -/

/-- Lines 153-160 of the script: the vote of four boolean signals cast
to integers, thresholded at 2, conjoined with `severity != "SEVERE"`. -/
def earlyWarning (sev : Severity) (pers shock peer : ℚ) : Bool :=
  (decide (((if sev = Severity.SUSPICIOUS then 1 else 0) +
    (if pers ≥ 0.10 then 1 else 0) +
    (if |shock| ≥ 2 then 1 else 0) +
    (if |peer| ≥ 0.10 then 1 else 0) : ℕ) ≥ 2)) &&
  (decide (sev ≠ Severity.SEVERE))

/-- C5: `early_warning` is true exactly when severity is not SEVERE and
at least 2 of the four signals hold, and a SEVERE record is never an
early-warning record. -/
theorem c5_early_warning :
    (∀ (sev : Severity) (pers shock peer : ℚ),
      earlyWarning sev pers shock peer = true ↔
        (((if sev = Severity.SUSPICIOUS then 1 else 0) +
          (if pers ≥ 0.10 then 1 else 0) +
          (if |shock| ≥ 2 then 1 else 0) +
          (if |peer| ≥ 0.10 then 1 else 0) : ℕ) ≥ 2 ∧
          sev ≠ Severity.SEVERE)) ∧
      ∀ (pers shock peer : ℚ),
        earlyWarning Severity.SEVERE pers shock peer = false := by
  constructor
  · intro sev pers shock peer
    rw [earlyWarning]
    simp
  · intro pers shock peer
    rw [earlyWarning]
    simp

/-! ## Stage 4: temporal features (`sort_values("date")` and the
per-pincode `diff().fillna(0)`) -/

/-- One cleaned observation as the temporal stage sees it. -/
structure Obs where
  date : Int
  pincode : Nat
  total : ℚ
deriving DecidableEq

/-- Embeds `df = df.sort_values("date")` (line 50). -/
def sortByDate (l : List Obs) : List Obs :=
  List.insertionSort (fun a b => a.date ≤ b.date) l

/-- The last recorded total for a pincode in the running state of the
group-wise difference. -/
def lookupTotal (p : Nat) : List (Nat × ℚ) → Option ℚ
  | [] => none
  | e :: es => if e.1 = p then some e.2 else lookupTotal p es

/-- Embeds `df.groupby("pincode")["total_population"].diff().fillna(0)`
(line 51): each record's total minus the previous total seen for the
same pincode, 0 when there is none. -/
def popChangesGo (m : List (Nat × ℚ)) : List Obs → List ℚ
  | [] => []
  | r :: rs =>
      (match lookupTotal r.pincode m with
       | none => 0
       | some t => r.total - t) :: popChangesGo ((r.pincode, r.total) :: m) rs

/-- Embeds `df["pop_change"]`: the group-wise difference computed after the
sort by date. -/
def popChanges (l : List Obs) : List ℚ :=
  popChangesGo [] (sortByDate l)

/-- The total of the last (most recent) record with pincode `p` in a
list of already-processed records. -/
def lastTotal (p : Nat) : List Obs → Option ℚ
  | [] => none
  | r :: rs =>
      match lastTotal p rs with
      | some t => some t
      | none => if r.pincode = p then some r.total else none

theorem popChangesGo_get (r : Obs) (l2 : List Obs) :
    ∀ (l1 : List Obs) (m : List (Nat × ℚ)),
      (popChangesGo m (l1 ++ r :: l2))[l1.length]? =
        some (match (match lastTotal r.pincode l1 with
                     | some t => some t
                     | none => lookupTotal r.pincode m) with
              | none => 0
              | some t => r.total - t) := by
  intro l1
  induction l1 with
  | nil =>
      intro m
      simp [popChangesGo, lastTotal]
  | cons x t ih =>
      intro m
      have step := ih ((x.pincode, x.total) :: m)
      rw [List.cons_append, popChangesGo]
      rw [List.length_cons, List.getElem?_cons_succ, step]
      rcases hlt : lastTotal r.pincode t with _ | t₀
      · rw [lastTotal, hlt]
        rw [lookupTotal]
        by_cases hp : x.pincode = r.pincode <;> simp [hp]
      · rw [lastTotal, hlt]

/-- C8: after sorting by date ascending, the `pop_change` of the record
at any position equals its total minus the total of the immediately
preceding record with the same pincode in that order (never another
pincode's total), and it is 0 when no such record exists — in
particular the first record of each pincode gets 0; the output is
date-sorted; and on the concrete table of two records of one pincode
with totals 1000 then 1300, the population changes are `[0, 300]`. -/
theorem c8_pop_change (l l1 : List Obs) (r : Obs) (l2 : List Obs)
    (h : sortByDate l = l1 ++ r :: l2) :
    List.Sorted (fun a b : Obs => a.date ≤ b.date) (sortByDate l) ∧
      (popChanges l)[l1.length]? =
        some (match lastTotal r.pincode l1 with
              | none => 0
              | some t => r.total - t) ∧
      popChanges [⟨1, 7, 1000⟩, ⟨2, 7, 1300⟩] = [0, 300] := by
  refine ⟨?_, ?_, ?_⟩
  · haveI : IsTotal Obs (fun a b => a.date ≤ b.date) :=
      ⟨fun a b => le_total a.date b.date⟩
    haveI : IsTrans Obs (fun a b => a.date ≤ b.date) :=
      ⟨fun _ _ _ hab hbc => le_trans hab hbc⟩
    exact List.sorted_insertionSort _ l
  · rw [popChanges, h, popChangesGo_get r l2 l1 []]
    rcases hlt : lastTotal r.pincode l1 with _ | t₀ <;> simp [lookupTotal]
  · norm_num [popChanges, sortByDate, List.insertionSort, List.orderedInsert,
      popChangesGo, lookupTotal]

/-- The two concrete observations of the C8 spec example. -/
def obsA : Obs := ⟨1, 7, 1000⟩

/-- Second concrete observation: same pincode, one period later. -/
def obsB : Obs := ⟨2, 7, 1300⟩

/-- Witness for `c8_pop_change`: the two-record table, decomposed around
its second record. -/
theorem c8_pop_change_witness :
    sortByDate [obsA, obsB] = [obsA] ++ obsB :: [] ∧
      (popChanges [obsA, obsB])[[obsA].length]? =
        some (match lastTotal obsB.pincode [obsA] with
              | none => 0
              | some t => obsB.total - t) := by
  have hsort : sortByDate [obsA, obsB] = [obsA] ++ obsB :: [] := by
    norm_num [sortByDate, List.insertionSort, List.orderedInsert, obsA, obsB]
  exact ⟨hsort, (c8_pop_change [obsA, obsB] [obsA] obsB [] hsort).2.1⟩

/-! ## Stage 9: persistence (group mean of the SEVERE indicator) -/

/-- One scored row as the persistence stage sees it. -/
structure SRow where
  district : String
  pincode : Nat
  severity : Severity
deriving DecidableEq

/-- The `(district, pincode)` group key of `df.groupby(["district", "pincode"])`. -/
def keyOf (r : SRow) : String × Nat := (r.district, r.pincode)

/-- Embeds `df["is_severe"] = df["severity"] == "SEVERE"` (line 106). -/
def isSevere (s : Severity) : Bool := s = Severity.SEVERE

/-- The group mean of the SEVERE indicator for one key:
`groupby(["district", "pincode"])["is_severe"].mean()` (lines 108-113). -/
def groupMean (l : List SRow) (k : String × Nat) : ℚ :=
  let g := l.filter (fun r => decide (keyOf r = k))
  ((g.countP (fun r => isSevere r.severity) : ℚ)) / (g.length : ℚ)

/-- Association-list lookup by group key. -/
def lookupPers (k : String × Nat) : List ((String × Nat) × ℚ) → Option ℚ
  | [] => none
  | e :: es => if e.1 = k then some e.2 else lookupPers k es

/-- The persistence aggregate: one row per distinct group key with its
group mean (the `reset_index()` data frame of lines 108-113). -/
def persTable (l : List SRow) : List ((String × Nat) × ℚ) :=
  ((l.map keyOf).dedup).map (fun k => (k, groupMean l k))

/-- Embeds `df = df.merge(persistence, on=["district", "pincode"], how="left")`
(line 115): every row receives the aggregate value of its own key. -/
def mergePersistence (l : List SRow) : List (SRow × ℚ) :=
  l.map (fun r => (r, (lookupPers (keyOf r) (persTable l)).getD 0))

theorem lookupPers_map (f : String × Nat → ℚ) (ks : List (String × Nat))
    (k : String × Nat) (hk : k ∈ ks) :
    lookupPers k (ks.map (fun k => (k, f k))) = some (f k) := by
  induction ks with
  | nil => simp at hk
  | cons a t ih =>
      rw [List.map_cons, lookupPers]
      by_cases ha : a = k
      · simp [ha]
      · have : k ∈ t := by
          rcases List.mem_cons.1 hk with h | h
          · exact absurd h.symm ha
          · exact h
        simp [ha, ih this]

theorem mergePersistence_value (l : List SRow) (r : SRow) (p : ℚ)
    (h : (r, p) ∈ mergePersistence l) : p = groupMean l (keyOf r) := by
  rcases List.mem_map.1 h with ⟨r0, hr0, heq⟩
  have hr : r0 = r := congrArg Prod.fst heq
  have hp : (lookupPers (keyOf r0) (persTable l)).getD 0 = p :=
    congrArg Prod.snd heq
  subst hr
  have hkmem : keyOf r0 ∈ (l.map keyOf).dedup :=
    List.mem_dedup.2 (List.mem_map_of_mem keyOf hr0)
  rw [persTable, lookupPers_map (groupMean l) _ _ hkmem] at hp
  simpa using hp.symm

/-- C9: the merged `persistence` of every record equals the whole-table
group mean of the SEVERE indicator for the record's
`(district, pincode)` key, and two records sharing a key always carry
the identical value (broadcast invariant). -/
theorem c9_persistence (l : List SRow) (r : SRow) (p : ℚ)
    (h : (r, p) ∈ mergePersistence l) :
    p = groupMean l (keyOf r) ∧
      ∀ r2 p2, (r2, p2) ∈ mergePersistence l → keyOf r2 = keyOf r → p2 = p := by
  refine ⟨mergePersistence_value l r p h, ?_⟩
  intro r2 p2 h2 hkey
  rw [mergePersistence_value l r2 p2 h2, hkey,
    ← mergePersistence_value l r p h]

/-- First row of the concrete persistence table. -/
def srowA : SRow := ⟨"d", 7, Severity.SEVERE⟩

/-- Second row of the concrete persistence table: same key, not severe. -/
def srowB : SRow := ⟨"d", 7, Severity.NORMAL⟩

/-- Witness for `c9_persistence` on a concrete two-row table sharing one
group key. -/
theorem c9_persistence_witness :
    ((srowA, (lookupPers (keyOf srowA) (persTable [srowA, srowB])).getD 0) ∈
      mergePersistence [srowA, srowB]) ∧
      ((lookupPers (keyOf srowA) (persTable [srowA, srowB])).getD 0 =
        groupMean [srowA, srowB] (keyOf srowA) ∧
        ∀ r2 p2, (r2, p2) ∈ mergePersistence [srowA, srowB] →
          keyOf r2 = keyOf srowA →
            p2 = (lookupPers (keyOf srowA) (persTable [srowA, srowB])).getD 0) := by
  have hmem : (srowA, (lookupPers (keyOf srowA) (persTable [srowA, srowB])).getD 0) ∈
      mergePersistence [srowA, srowB] :=
    List.mem_map_of_mem _ (by simp)
  exact ⟨hmem, c9_persistence [srowA, srowB] srowA _ hmem⟩

/-! ## Stage 9/10: impact score and the policy threshold -/

/-- The rounding contract of `Series.round(3)` over real inputs: the
result is an integer number of thousandths within half a thousandth of
the exact value (both round-half-even and round-half-up satisfy it). -/
def isRound3 (x : ℝ) (q : ℚ) : Prop :=
  ∃ n : ℤ, q = (n : ℚ) / 1000 ∧ |(n : ℝ) - x * 1000| ≤ 1/2

theorem exp_le_inv_one_sub {x : ℝ} (h1 : x < 1) :
    Real.exp x ≤ (1 - x)⁻¹ := by
  have hpos : 0 < 1 - x := by linarith
  have hneg : 1 - x ≤ Real.exp (-x) := by
    have h := Real.add_one_le_exp (-x)
    linarith
  have hexp : Real.exp x = (Real.exp (-x))⁻¹ := by
    rw [← Real.exp_neg, neg_neg]
  rw [hexp]
  exact inv_anti₀ hpos hneg

theorem log_seventyfive : (4.253 : ℝ) ≤ Real.log 75 := by
  rw [Real.le_log_iff_exp_le (by norm_num : (0:ℝ) < 75)]
  have hsplit : Real.exp (4.253 : ℝ) = Real.exp 4 * Real.exp 0.253 := by
    rw [← Real.exp_add]
    norm_num
  have he1 : Real.exp 1 ≤ 2.7182818286 := Real.exp_one_lt_d9.le
  have he4 : Real.exp 4 ≤ 2.7182818286 ^ 4 := by
    have h : Real.exp 4 = Real.exp 1 ^ 4 := by
      rw [← Real.exp_nat_mul]
      norm_num
    rw [h]
    exact pow_le_pow_left₀ (Real.exp_pos 1).le he1 4
  have hsm : Real.exp (0.253 : ℝ) ≤ (1 - 0.253)⁻¹ :=
    exp_le_inv_one_sub (by norm_num)
  have hnn : (0:ℝ) ≤ Real.exp 4 := (Real.exp_pos 4).le
  calc Real.exp (4.253 : ℝ) = Real.exp 4 * Real.exp 0.253 := hsplit
    _ ≤ 2.7182818286 ^ 4 * (1 - 0.253)⁻¹ := by
        apply mul_le_mul he4 hsm (Real.exp_pos _).le (by positivity)
    _ ≤ 75 := by norm_num

/-- C10: `impact_score` is not bounded by 1 — the population term alone
forces the top action.  For every record with confidence ≥ 0,
persistence ≥ 0 (always true of a group mean of an indicator), and
`total_population ≥ 74`, the rounded impact score exceeds 0.85 and the
recommended action is the top one, regardless of the record's anomaly
flag or severity. -/
theorem c10_impact_unbounded (c p pop q : ℚ)
    (hc : 0 ≤ c) (hp : 0 ≤ p) (hpop : 74 ≤ pop)
    (hq : isRound3 ((c : ℝ) * 0.4 + (p : ℝ) * 0.4 +
      Real.log (1 + (pop : ℝ)) * 0.2) q) :
    (0.85 : ℚ) < q ∧ action q = "Immediate audit & field verification" := by
  rcases hq with ⟨n, hqn, hn⟩
  have hpopR : (74 : ℝ) ≤ (pop : ℝ) := by exact_mod_cast hpop
  have hlog : (4.253 : ℝ) ≤ Real.log (1 + (pop : ℝ)) := by
    refine log_seventyfive.trans (Real.log_le_log (by norm_num) (by linarith))
  have hcR : (0 : ℝ) ≤ (c : ℝ) := by exact_mod_cast hc
  have hpR : (0 : ℝ) ≤ (p : ℝ) := by exact_mod_cast hp
  have hx : (0.8506 : ℝ) ≤ (c : ℝ) * 0.4 + (p : ℝ) * 0.4 +
      Real.log (1 + (pop : ℝ)) * 0.2 := by nlinarith
  have hnlow : (850 : ℝ) < (n : ℝ) := by
    have habs := abs_le.1 hn
    nlinarith [habs.1, habs.2]
  have hnint : (851 : ℤ) ≤ n := by
    have h850 : (850 : ℤ) < n := by exact_mod_cast hnlow
    omega
  have hnq : (851 : ℚ) ≤ (n : ℚ) := by exact_mod_cast hnint
  have hqgt : (0.85 : ℚ) < q := by
    rw [hqn]
    linarith
  refine ⟨hqgt, ?_⟩
  rw [action, if_pos hqgt]

/-- Witness for `c10_impact_unbounded`: confidence 0, persistence 0,
total population 127 (so the log term is `0.2 * log 128 = 1.4 * log 2`),
rounded impact 0.97. -/
theorem c10_impact_unbounded_witness :
    ((0 : ℚ) ≤ 0 ∧ (74 : ℚ) ≤ 127 ∧
      isRound3 (((0 : ℚ) : ℝ) * 0.4 + ((0 : ℚ) : ℝ) * 0.4 +
        Real.log (1 + ((127 : ℚ) : ℝ)) * 0.2) (97/100)) ∧
      ((0.85 : ℚ) < 97/100 ∧
        action (97/100) = "Immediate audit & field verification") := by
  have h128 : (1 + ((127 : ℚ) : ℝ)) = (2 : ℝ) ^ (7 : ℕ) := by norm_num
  have hlog : Real.log (1 + ((127 : ℚ) : ℝ)) = 7 * Real.log 2 := by
    rw [h128, Real.log_pow]
    norm_num
  have hr : isRound3 (((0 : ℚ) : ℝ) * 0.4 + ((0 : ℚ) : ℝ) * 0.4 +
      Real.log (1 + ((127 : ℚ) : ℝ)) * 0.2) (97/100) := by
    refine ⟨970, by norm_num, ?_⟩
    rw [hlog]
    have hlo := Real.log_two_gt_d9
    have hhi := Real.log_two_lt_d9
    rw [abs_le]
    constructor <;> push_cast <;> nlinarith
  exact ⟨⟨le_refl 0, by norm_num, hr⟩,
    c10_impact_unbounded 0 0 127 (97/100) (le_refl 0) (le_refl 0)
      (by norm_num) hr⟩

end UIDAI
